import Mathlib

/-!
Verification of the PhysicalQuantities unit-algebra engine.

The repository snapshot ships only documentation (reStructuredText pages and
notebooks); the implementation modules `unit.py`, `quantity.py` and
`dBQuantity.py` are not part of the tree.  The definitions below are therefore
modelled from the specification, with the documentation's concrete examples
(`src/docs/pq-basics.rst`, `src/doc/pq-autoscale.rst`,
`src/docs/source/pq-dbquantity.rst`) used as the authority for data values
such as unit factors, dimension vectors and the dB unit table.

The linear model works over exact rationals (the Python payloads are numeric
scalars); the logarithmic (dB) model works over real numbers, since its
arithmetic uses `log10` and powers of ten.
-/

/-- Modelled from the spec: a dimension vector over the nine base dimensions
`['m', 'kg', 's', 'A', 'K', 'mol', 'cd', 'rad', 'sr']` (the `base_names`
shown in the basics documentation), with rational exponents. -/
structure Dim where
  m : ℚ
  kg : ℚ
  s : ℚ
  A : ℚ
  K : ℚ
  mol : ℚ
  cd : ℚ
  rad : ℚ
  sr : ℚ
deriving DecidableEq

/-- The dimensionless vector. -/
def dimless : Dim := ⟨0, 0, 0, 0, 0, 0, 0, 0, 0⟩

/-- Length dimension. -/
def dimLength : Dim := ⟨1, 0, 0, 0, 0, 0, 0, 0, 0⟩

/-- Mass dimension. -/
def dimMass : Dim := ⟨0, 1, 0, 0, 0, 0, 0, 0, 0⟩

/-- Time dimension. -/
def dimTime : Dim := ⟨0, 0, 1, 0, 0, 0, 0, 0, 0⟩

/-- Electric current dimension. -/
def dimCurrent : Dim := ⟨0, 0, 0, 1, 0, 0, 0, 0, 0⟩

/-- Temperature dimension. -/
def dimTemp : Dim := ⟨0, 0, 0, 0, 1, 0, 0, 0, 0⟩

/-- Amount-of-substance dimension. -/
def dimAmount : Dim := ⟨0, 0, 0, 0, 0, 1, 0, 0, 0⟩

/-- Luminous intensity dimension. -/
def dimLum : Dim := ⟨0, 0, 0, 0, 0, 0, 1, 0, 0⟩

/-- Plane angle dimension. -/
def dimAngle : Dim := ⟨0, 0, 0, 0, 0, 0, 0, 1, 0⟩

/-- Solid angle dimension. -/
def dimSolid : Dim := ⟨0, 0, 0, 0, 0, 0, 0, 0, 1⟩

/-- Frequency: 1/s. -/
def dimFreq : Dim := ⟨0, 0, -1, 0, 0, 0, 0, 0, 0⟩

/-- Force: kg*m/s^2. -/
def dimForce : Dim := ⟨1, 1, -2, 0, 0, 0, 0, 0, 0⟩

/-- Energy: kg*m^2/s^2. -/
def dimEnergy : Dim := ⟨2, 1, -2, 0, 0, 0, 0, 0, 0⟩

/-- Power: kg*m^2/s^3. -/
def dimPower : Dim := ⟨2, 1, -3, 0, 0, 0, 0, 0, 0⟩

/-- Voltage: kg*m^2/(A*s^3). -/
def dimVoltage : Dim := ⟨2, 1, -3, -1, 0, 0, 0, 0, 0⟩

/-- Resistance: kg*m^2/(A^2*s^3). -/
def dimResistance : Dim := ⟨2, 1, -3, -2, 0, 0, 0, 0, 0⟩

/-- Capacitance: A^2*s^4/(kg*m^2). -/
def dimCap : Dim := ⟨-2, -1, 4, 2, 0, 0, 0, 0, 0⟩

/-- Area: m^2. -/
def dimArea : Dim := ⟨2, 0, 0, 0, 0, 0, 0, 0, 0⟩

/-- Unit names are modelled as lists of characters. -/
abbrev UName := List Char

/-- Modelled from the spec: a `PhysicalUnit` descriptor pairing a name with a
dimension vector (`powers`), a rational scale factor to the coherent SI
representation, and the `prefixed` flag shown in the basics documentation. -/
structure PhysicalUnit where
  name : UName
  powers : Dim
  factor : ℚ
  prefixed : Bool
deriving DecidableEq

/-- Modelled from the spec: error taxonomy of §7.  `incompatible` stands for
`UnitError("Incompatible units")`, `unknownUnit` for `UnknownUnitError`, and
`domainError` for the math-domain errors raised by `dB10`/`dB20`. -/
inductive PQError where
  | incompatible
  | unknownUnit
  | domainError
deriving DecidableEq

/-- Modelled from the spec: the registry's table of base and named derived
units.  Factors are relative to coherent SI units (`factor = 1` for coherent
units, `g` is 1/1000 of `kg`, `min` is 60 s, `h` is 3600 s). -/
def unit_table : List (UName × PhysicalUnit) := [
  (['m'], ⟨['m'], dimLength, 1, false⟩),
  (['k', 'g'], ⟨['k', 'g'], dimMass, 1, false⟩),
  (['g'], ⟨['g'], dimMass, 1/1000, false⟩),
  (['s'], ⟨['s'], dimTime, 1, false⟩),
  (['A'], ⟨['A'], dimCurrent, 1, false⟩),
  (['K'], ⟨['K'], dimTemp, 1, false⟩),
  (['m', 'o', 'l'], ⟨['m', 'o', 'l'], dimAmount, 1, false⟩),
  (['c', 'd'], ⟨['c', 'd'], dimLum, 1, false⟩),
  (['r', 'a', 'd'], ⟨['r', 'a', 'd'], dimAngle, 1, false⟩),
  (['s', 'r'], ⟨['s', 'r'], dimSolid, 1, false⟩),
  (['H', 'z'], ⟨['H', 'z'], dimFreq, 1, false⟩),
  (['N'], ⟨['N'], dimForce, 1, false⟩),
  (['J'], ⟨['J'], dimEnergy, 1, false⟩),
  (['W'], ⟨['W'], dimPower, 1, false⟩),
  (['V'], ⟨['V'], dimVoltage, 1, false⟩),
  (['O', 'h', 'm'], ⟨['O', 'h', 'm'], dimResistance, 1, false⟩),
  (['F'], ⟨['F'], dimCap, 1, false⟩),
  (['m', 'i', 'n'], ⟨['m', 'i', 'n'], dimTime, 60, false⟩),
  (['h'], ⟨['h'], dimTime, 3600, false⟩)
]

/-- Modelled from the spec: the recognized SI prefixes with their decimal
scale, ordered longest-prefix-first (`da` before the single-character
prefixes) as §4.2 requires. -/
def si_prefixes : List (UName × ℚ) := [
  (['d', 'a'], 10),
  (['Y'], 10^24),
  (['Z'], 10^21),
  (['E'], 10^18),
  (['P'], 10^15),
  (['T'], 10^12),
  (['G'], 10^9),
  (['M'], 10^6),
  (['k'], 1000),
  (['h'], 100),
  (['d'], 1/10),
  (['c'], 1/100),
  (['m'], 1/1000),
  (['u'], 1/10^6),
  (['n'], 1/10^9),
  (['p'], 1/10^12),
  (['f'], 1/10^15),
  (['a'], 1/10^18),
  (['z'], 1/10^21),
  (['y'], 1/10^24)
]

/-- Exact-name lookup in the unit table. -/
def lookupExact (tok : UName) : Option PhysicalUnit :=
  unit_table.findSome? (fun e => if e.1 = tok then some e.2 else none)

/-- Build the prefixed form of a unit: the scale factor multiplies the base
unit's factor and the `prefixed` flag is set. -/
def mkPrefixed (tok : UName) (scale : ℚ) (u : PhysicalUnit) : PhysicalUnit :=
  ⟨tok, u.powers, scale * u.factor, true⟩

/-- Modelled from the spec: `lookup_atom` (§4.2) — exact match in the table
first, else strip a recognized prefix (longest first) and retry the lookup on
the remainder.  The fuel argument bounds the recursion by the token length
(each stripped prefix is nonempty). -/
def lookupAtom : Nat → UName → Option PhysicalUnit
  | 0, tok => lookupExact tok
  | fuel + 1, tok =>
    match lookupExact tok with
    | some u => some u
    | none =>
      si_prefixes.findSome? (fun p =>
        if p.1.isPrefixOf tok then
          (lookupAtom fuel (tok.drop p.1.length)).map (mkPrefixed tok p.2)
        else none)

/-- Modelled from the spec: `UnitRegistry.resolve` restricted to single unit
atoms, which is all the claims under verification exercise. -/
def findunit (tok : UName) : Option PhysicalUnit :=
  lookupAtom tok.length tok

/-- Modelled from the spec: a `PhysicalQuantity` pairs a numeric payload
(here an exact rational) with a `PhysicalUnit`. -/
structure PhysicalQuantity where
  value : ℚ
  unit : PhysicalUnit
deriving DecidableEq

/-- Modelled from the spec: the conversion factor from one unit into another
of the same dimension, `from.factor / to.factor`. -/
def convert_factor (src dst : PhysicalUnit) : ℚ :=
  src.factor / dst.factor

/-- Modelled from the spec §4.3: `add` requires equal dimension vectors and
fails with `UnitError` otherwise; on success the left operand's unit wins and
the right value is rescaled by the conversion factor. -/
def qadd (a b : PhysicalQuantity) : Except PQError PhysicalQuantity :=
  if a.unit.powers = b.unit.powers then
    .ok ⟨a.value + convert_factor b.unit a.unit * b.value, a.unit⟩
  else
    .error .incompatible

/-- Modelled from the spec §4.3: `sub`, the subtraction mirror of `qadd`. -/
def qsub (a b : PhysicalQuantity) : Except PQError PhysicalQuantity :=
  if a.unit.powers = b.unit.powers then
    .ok ⟨a.value - convert_factor b.unit a.unit * b.value, a.unit⟩
  else
    .error .incompatible

/-- Modelled from the spec §4.3: `to(a, target)` — resolve the target name,
require equal dimensions (`UnitError("Incompatible units")` otherwise), and
rescale the value by `a.unit.factor / target.factor`. -/
def qto (a : PhysicalQuantity) (target : UName) : Except PQError PhysicalQuantity :=
  match findunit target with
  | none => .error .unknownUnit
  | some tu =>
    if a.unit.powers = tu.powers then
      .ok ⟨a.value * a.unit.factor / tu.factor, tu⟩
    else
      .error .incompatible

/-- Modelled from the spec §4.3: equality comparison converts the right-hand
side into the left-hand side's unit first; incompatible dimensions raise
`UnitError` instead of returning false. -/
def qeq (a b : PhysicalQuantity) : Except PQError Bool :=
  if a.unit.powers = b.unit.powers then
    .ok (decide (a.value = convert_factor b.unit a.unit * b.value))
  else
    .error .incompatible

/-- Modelled from the spec §4.3: strict-order comparison with the same
convert-then-compare convention as `qeq`. -/
def qlt (a b : PhysicalQuantity) : Except PQError Bool :=
  if a.unit.powers = b.unit.powers then
    .ok (decide (a.value < convert_factor b.unit a.unit * b.value))
  else
    .error .incompatible

/-- Modelled from the spec §4.3: the prefix candidates scanned by
`autoscale`, ordered from the largest magnitude down, including the empty
(unprefixed, factor 1) form. -/
def scaleCandidates : List (UName × ℚ) := [
  (['Y'], 10^24),
  (['Z'], 10^21),
  (['E'], 10^18),
  (['P'], 10^15),
  (['T'], 10^12),
  (['G'], 10^9),
  (['M'], 10^6),
  (['k'], 1000),
  (['h'], 100),
  (['d', 'a'], 10),
  ([], 1),
  (['d'], 1/10),
  (['c'], 1/100),
  (['m'], 1/1000),
  (['u'], 1/10^6),
  (['n'], 1/10^9),
  (['p'], 1/10^12),
  (['f'], 1/10^15),
  (['a'], 1/10^18),
  (['z'], 1/10^21),
  (['y'], 1/10^24)
]

/-- The scanning step of `autoscale`: return the first candidate prefix whose
mantissa `|mag| / p.2` lies in `[1, 1000)`. -/
def chooseScale (mag : ℚ) : List (UName × ℚ) → Option (UName × ℚ)
  | [] => none
  | p :: rest =>
    if 1 ≤ |mag| / p.2 ∧ |mag| / p.2 < 1000 then some p else chooseScale mag rest

/-- Modelled from the spec §4.3: `autoscale` computes the coherent magnitude
`value * factor`, returns the unprefixed form for an exact zero, otherwise
scans the prefix candidates from the largest down for the one giving a
mantissa in `[1, 1000)`, and clamps to the extreme prefix (Yotta or yocto)
when the magnitude is out of range, without raising an error. -/
def autoscale (a : PhysicalQuantity) : PhysicalQuantity :=
  let mag := a.value * a.unit.factor
  if mag = 0 then
    ⟨mag, ⟨a.unit.name, a.unit.powers, 1, false⟩⟩
  else
    match chooseScale mag scaleCandidates with
    | some p => ⟨mag / p.2, ⟨p.1 ++ a.unit.name, a.unit.powers, p.2, decide (p.2 ≠ 1)⟩⟩
    | none =>
      if 1 ≤ |mag| then
        ⟨mag / 10^24, ⟨['Y'] ++ a.unit.name, a.unit.powers, 10^24, true⟩⟩
      else
        ⟨mag * 10^24, ⟨['y'] ++ a.unit.name, a.unit.powers, 1/10^24, true⟩⟩

/-- The metre unit as resolved by the registry. -/
def mUnit : PhysicalUnit := ⟨['m'], dimLength, 1, false⟩

/-- The second unit as resolved by the registry. -/
def sUnit : PhysicalUnit := ⟨['s'], dimTime, 1, false⟩

/-- The centimetre: prefixed form of the metre. -/
def cmUnit : PhysicalUnit := ⟨['c', 'm'], dimLength, 1/100, true⟩

/-- The millimetre: prefixed form of the metre. -/
def mmUnit : PhysicalUnit := ⟨['m', 'm'], dimLength, 1/1000, true⟩

lemma findunit_m : findunit ['m'] = some mUnit := by decide

lemma findunit_s : findunit ['s'] = some sUnit := by decide

lemma findunit_mm : findunit ['m', 'm'] = some mmUnit := by
  have h1 : lookupExact ['m', 'm'] = none := by decide
  have h2 : lookupAtom 1 ['m'] = some mUnit := by decide
  show lookupAtom 2 ['m', 'm'] = _
  rw [show (2 : Nat) = 1 + 1 from rfl, lookupAtom, h1]
  simp [si_prefixes, List.findSome?_cons, List.isPrefixOf, h2, mkPrefixed, mUnit, mmUnit]

lemma findunit_cm : findunit ['c', 'm'] = some cmUnit := by
  have h1 : lookupExact ['c', 'm'] = none := by decide
  have h2 : lookupAtom 1 ['m'] = some mUnit := by decide
  show lookupAtom 2 ['c', 'm'] = _
  rw [show (2 : Nat) = 1 + 1 from rfl, lookupAtom, h1]
  simp [si_prefixes, List.findSome?_cons, List.isPrefixOf, h2, mkPrefixed, mUnit, cmUnit]

lemma unit_table_factor_pos : ∀ e ∈ unit_table, (0 : ℚ) < e.2.factor := by
  intro e he
  fin_cases he <;> norm_num

lemma si_prefixes_pos : ∀ p ∈ si_prefixes, (0 : ℚ) < p.2 := by
  intro p hp
  fin_cases hp <;> norm_num

lemma lookupExact_factor_pos {tok : UName} {u : PhysicalUnit}
    (h : lookupExact tok = some u) : 0 < u.factor := by
  obtain ⟨e, he, hfe⟩ := List.exists_of_findSome?_eq_some h
  by_cases hname : e.1 = tok
  · simp only [hname, if_true] at hfe
    obtain rfl : e.2 = u := by simpa using hfe
    exact unit_table_factor_pos e he
  · simp [hname] at hfe

lemma lookupAtom_factor_pos :
    ∀ (fuel : Nat) (tok : UName) (u : PhysicalUnit),
      lookupAtom fuel tok = some u → 0 < u.factor := by
  intro fuel
  induction fuel with
  | zero => exact fun tok u h => lookupExact_factor_pos h
  | succ n ih =>
    intro tok u h
    rw [lookupAtom] at h
    cases hex : lookupExact tok with
    | some w =>
      rw [hex] at h
      obtain rfl : w = u := by simpa using h
      exact lookupExact_factor_pos hex
    | none =>
      rw [hex] at h
      simp only at h
      obtain ⟨p, hp, hfp⟩ := List.exists_of_findSome?_eq_some h
      by_cases hpre : p.1.isPrefixOf tok
      · simp only [hpre, if_true] at hfp
        obtain ⟨w, hw, rfl⟩ := Option.map_eq_some'.mp hfp
        have hwpos := ih _ _ hw
        have hppos := si_prefixes_pos p hp
        simpa [mkPrefixed] using mul_pos hppos hwpos
      · simp [hpre] at hfp

lemma findunit_factor_pos {tok : UName} {u : PhysicalUnit}
    (h : findunit tok = some u) : 0 < u.factor :=
  lookupAtom_factor_pos tok.length tok u h

/-- C1: `add`/`sub` require equal dimension vectors (failing with `UnitError`
otherwise); on success the left operand's unit wins and the result value is
`a.value + convert_factor(b.unit -> a.unit) * b.value` (resp. the difference
for `sub`). -/
theorem addsub_spec (a b : PhysicalQuantity) :
    (a.unit.powers ≠ b.unit.powers →
      qadd a b = .error .incompatible ∧ qsub a b = .error .incompatible) ∧
    (a.unit.powers = b.unit.powers →
      qadd a b = .ok ⟨a.value + convert_factor b.unit a.unit * b.value, a.unit⟩ ∧
      qsub a b = .ok ⟨a.value - convert_factor b.unit a.unit * b.value, a.unit⟩) := by
  constructor <;> intro h <;> constructor <;> simp [qadd, qsub, h]

/-- C1 witness: `1 m + 100 cm = 2 m`, and adding metres to seconds raises
`UnitError`. -/
theorem addsub_spec_witness :
    qadd ⟨1, mUnit⟩ ⟨100, cmUnit⟩ = .ok ⟨2, mUnit⟩ ∧
    qadd ⟨1, mUnit⟩ ⟨1, sUnit⟩ = .error .incompatible := by
  constructor
  · have h := ((addsub_spec ⟨1, mUnit⟩ ⟨100, cmUnit⟩).2 rfl).1
    rw [h]
    norm_num [convert_factor, mUnit, cmUnit]
  · exact ((addsub_spec ⟨1, mUnit⟩ ⟨1, sUnit⟩).1 (by decide)).1

/-- C2: `to(a, t)` resolves the target, fails with
`UnitError("Incompatible units")` on a dimension mismatch, and otherwise
rescales the value by `a.unit.factor / target.factor`. -/
theorem to_spec (a : PhysicalQuantity) (t : UName) (tu : PhysicalUnit)
    (h : findunit t = some tu) :
    (a.unit.powers ≠ tu.powers → qto a t = .error .incompatible) ∧
    (a.unit.powers = tu.powers →
      qto a t = .ok ⟨a.value * a.unit.factor / tu.factor, tu⟩) := by
  constructor <;> intro hd <;> simp [qto, h, hd]

/-- C2 witness: `1.1 m` converted to `mm` has value `1100`, and converting
metres to seconds raises `UnitError`. -/
theorem to_spec_witness :
    qto ⟨11/10, mUnit⟩ ['m', 'm'] = .ok ⟨1100, mmUnit⟩ ∧
    qto ⟨1, mUnit⟩ ['s'] = .error .incompatible := by
  constructor
  · have h := (to_spec ⟨11/10, mUnit⟩ ['m', 'm'] mmUnit findunit_mm).2 rfl
    rw [h]
    norm_num [mUnit, mmUnit]
  · exact (to_spec ⟨1, mUnit⟩ ['s'] sUnit findunit_s).1 (by decide)

/-- C5: the conversion round trip between two dimensionally compatible
resolved units restores the original value exactly. -/
theorem roundtrip_spec (x : ℚ) (u1 u2 : UName) (p1 p2 : PhysicalUnit)
    (h1 : findunit u1 = some p1) (h2 : findunit u2 = some p2)
    (hdim : p1.powers = p2.powers) :
    ∃ b c, qto ⟨x, p1⟩ u2 = .ok b ∧ qto b u1 = .ok c ∧
      c.value = x ∧ c.unit = p1 := by
  have hf1 := findunit_factor_pos h1
  have hf2 := findunit_factor_pos h2
  refine ⟨⟨x * p1.factor / p2.factor, p2⟩, ⟨x * p1.factor / p2.factor * p2.factor / p1.factor, p1⟩, ?_, ?_, ?_, rfl⟩
  · simp [qto, h2, hdim]
  · simp [qto, h1, hdim]
  · field_simp

/-- C5 witness: `5 m -> cm -> m` gives back exactly `5`. -/
theorem roundtrip_spec_witness :
    ∃ b c, qto ⟨5, mUnit⟩ ['c', 'm'] = .ok b ∧ qto b ['m'] = .ok c ∧
      c.value = 5 ∧ c.unit = mUnit :=
  roundtrip_spec 5 ['m'] ['c', 'm'] mUnit cmUnit findunit_m findunit_cm rfl

/-- C9: comparisons convert the right-hand side into the left-hand side's
unit first, and comparing incompatible dimensions raises `UnitError` instead
of returning false; in particular `1 m` compares equal to `100 cm`. -/
theorem compare_spec :
    (∀ a b : PhysicalQuantity, a.unit.powers ≠ b.unit.powers →
      qeq a b = .error .incompatible ∧ qlt a b = .error .incompatible) ∧
    (∀ a b : PhysicalQuantity, a.unit.powers = b.unit.powers →
      qeq a b = .ok (decide (a.value = convert_factor b.unit a.unit * b.value)) ∧
      qlt a b = .ok (decide (a.value < convert_factor b.unit a.unit * b.value))) ∧
    qeq ⟨1, mUnit⟩ ⟨100, cmUnit⟩ = .ok true ∧
    qlt ⟨1, mUnit⟩ ⟨150, cmUnit⟩ = .ok true ∧
    qeq ⟨1, mUnit⟩ ⟨1, sUnit⟩ = .error .incompatible := by
  refine ⟨fun a b h => ⟨by simp [qeq, h], by simp [qlt, h]⟩,
    fun a b h => ⟨by simp [qeq, h], by simp [qlt, h]⟩, ?_, ?_, ?_⟩
  · simp only [qeq, mUnit, cmUnit]
    norm_num [convert_factor]
  · simp only [qlt, mUnit, cmUnit]
    norm_num [convert_factor]
  · simp [qeq, mUnit, sUnit, dimLength, dimTime]

/-- C9 witness: the error half of `compare_spec` applied at `1 m` vs `1 s`. -/
theorem compare_spec_witness :
    qeq ⟨1, mUnit⟩ ⟨1, sUnit⟩ = .error .incompatible ∧
    qlt ⟨1, mUnit⟩ ⟨1, sUnit⟩ = .error .incompatible :=
  compare_spec.1 ⟨1, mUnit⟩ ⟨1, sUnit⟩ (by decide)

lemma lookupExact_k_cons {u : UName} (h : u ≠ ['g']) :
    lookupExact ('k' :: u) = none := by
  have h' : ¬(['g'] = u) := fun he => h he.symm
  simp [lookupExact, unit_table, List.findSome?_cons, h']

/-- C6: prefixing a resolvable unit name with "k" resolves to a unit whose
factor is exactly 1000 times the base unit's factor; prefixed forms are
computed from `(prefix scale) * (base factor)`, not stored separately. -/
theorem kilo_prefix_spec (u : UName) (v : PhysicalUnit)
    (h : findunit u = some v) :
    ∃ w, findunit ('k' :: u) = some w ∧ w.factor = 1000 * v.factor := by
  by_cases hg : u = ['g']
  · subst hg
    have hv : findunit ['g'] = some ⟨['g'], dimMass, 1/1000, false⟩ := rfl
    rw [hv] at h
    obtain rfl : (⟨['g'], dimMass, 1/1000, false⟩ : PhysicalUnit) = v :=
      Option.some_inj.mp h
    refine ⟨⟨['k', 'g'], dimMass, 1, false⟩, rfl, ?_⟩
    norm_num
  · have hex := lookupExact_k_cons hg
    have h' : lookupAtom u.length u = some v := h
    refine ⟨mkPrefixed ('k' :: u) 1000 v, ?_, rfl⟩
    show lookupAtom (u.length + 1) ('k' :: u) = _
    rw [lookupAtom, hex]
    simp [si_prefixes, List.findSome?_cons, List.isPrefixOf, h']

/-- C6 witness: `km` resolves with factor `1000 * 1`. -/
theorem kilo_prefix_spec_witness :
    findunit ['m'] = some mUnit ∧
    ∃ w, findunit ['k', 'm'] = some w ∧ w.factor = 1000 * mUnit.factor :=
  ⟨findunit_m, kilo_prefix_spec ['m'] mUnit findunit_m⟩

lemma scaleCandidates_pos : ∀ p ∈ scaleCandidates, (0 : ℚ) < p.2 := by
  intro p hp
  fin_cases hp <;> norm_num

lemma chooseScale_mem_of_some {mag : ℚ} {l : List (UName × ℚ)} {p : UName × ℚ}
    (h : chooseScale mag l = some p) :
    p ∈ l ∧ 1 ≤ |mag| / p.2 ∧ |mag| / p.2 < 1000 := by
  induction l with
  | nil => simp [chooseScale] at h
  | cons q rest ih =>
    rw [chooseScale] at h
    by_cases hq : 1 ≤ |mag| / q.2 ∧ |mag| / q.2 < 1000
    · rw [if_pos hq] at h
      obtain rfl : q = p := by simpa using h
      exact ⟨List.mem_cons_self _ _, hq.1, hq.2⟩
    · rw [if_neg hq] at h
      obtain ⟨hm, hrange⟩ := ih h
      exact ⟨List.mem_cons_of_mem _ hm, hrange⟩

lemma chooseScale_none {mag : ℚ} {l : List (UName × ℚ)}
    (h : chooseScale mag l = none) :
    ∀ p ∈ l, ¬(1 ≤ |mag| / p.2 ∧ |mag| / p.2 < 1000) := by
  induction l with
  | nil => simp
  | cons q rest ih =>
    rw [chooseScale] at h
    by_cases hq : 1 ≤ |mag| / q.2 ∧ |mag| / q.2 < 1000
    · rw [if_pos hq] at h
      exact absurd h (by simp)
    · rw [if_neg hq] at h
      intro p hp
      rcases List.mem_cons.mp hp with rfl | hmem
      · exact hq
      · exact ih h p hmem

/-- C4: `autoscale` returns a mantissa in `[1, 1000)` whenever some prefix
candidate admits one; an exactly-zero magnitude yields the unprefixed
(factor 1) form; and an out-of-range magnitude clamps to the extreme prefix
(Yotta or yocto) without error. -/
theorem autoscale_spec (a : PhysicalQuantity) :
    (a.value * a.unit.factor = 0 →
      (autoscale a).unit.factor = 1 ∧ (autoscale a).unit.prefixed = false) ∧
    (a.value * a.unit.factor ≠ 0 →
      ((∃ p ∈ scaleCandidates,
          1 ≤ |a.value * a.unit.factor| / p.2 ∧
          |a.value * a.unit.factor| / p.2 < 1000) →
        1 ≤ |a.value * a.unit.factor / (autoscale a).unit.factor| ∧
        |a.value * a.unit.factor / (autoscale a).unit.factor| < 1000 ∧
        (autoscale a).value = a.value * a.unit.factor / (autoscale a).unit.factor) ∧
      ((∀ p ∈ scaleCandidates,
          ¬(1 ≤ |a.value * a.unit.factor| / p.2 ∧
            |a.value * a.unit.factor| / p.2 < 1000)) →
        (autoscale a).unit.factor = 10^24 ∨ (autoscale a).unit.factor = 1/10^24)) := by
  set mag := a.value * a.unit.factor with hmag
  constructor
  · intro h0
    simp [autoscale, ← hmag, h0]
  · intro hne
    constructor
    · rintro ⟨p, hp, hrange⟩
      cases hcs : chooseScale mag scaleCandidates with
      | none => exact absurd hrange (chooseScale_none hcs p hp)
      | some q =>
        obtain ⟨hqmem, hq1, hq2⟩ := chooseScale_mem_of_some hcs
        have hqpos := scaleCandidates_pos q hqmem
        have hres : autoscale a =
            ⟨mag / q.2, ⟨q.1 ++ a.unit.name, a.unit.powers, q.2, decide (q.2 ≠ 1)⟩⟩ := by
          simp [autoscale, ← hmag, hne, hcs]
        rw [hres]
        have habs : |mag / q.2| = |mag| / q.2 := by
          rw [abs_div, abs_of_pos hqpos]
        exact ⟨by simpa [habs] using hq1, by simpa [habs] using hq2, rfl⟩
    · intro hall
      cases hcs : chooseScale mag scaleCandidates with
      | some q =>
        obtain ⟨hqmem, hq1, hq2⟩ := chooseScale_mem_of_some hcs
        exact absurd ⟨hq1, hq2⟩ (hall q hqmem)
      | none =>
        by_cases hbig : 1 ≤ |mag|
        · left
          simp [autoscale, ← hmag, hne, hcs, hbig]
        · right
          simp [autoscale, ← hmag, hne, hcs, hbig]

/-- C4 witness: zero metres autoscale to the unprefixed form, and
`0.001 m` autoscales to a mantissa in `[1, 1000)`. -/
theorem autoscale_spec_witness :
    ((autoscale ⟨0, mUnit⟩).unit.factor = 1 ∧
      (autoscale ⟨0, mUnit⟩).unit.prefixed = false) ∧
    (1 ≤ |(1/1000 : ℚ) * mUnit.factor / (autoscale ⟨1/1000, mUnit⟩).unit.factor| ∧
      |(1/1000 : ℚ) * mUnit.factor / (autoscale ⟨1/1000, mUnit⟩).unit.factor| < 1000) := by
  have hz := (autoscale_spec ⟨0, mUnit⟩).1 (by norm_num [mUnit])
  have habs : |(1/1000 : ℚ) * mUnit.factor| = 1/1000 := by
    rw [abs_of_pos (by norm_num [mUnit])]
    norm_num [mUnit]
  have hx := ((autoscale_spec ⟨1/1000, mUnit⟩).2 (by norm_num [mUnit])).1
    ⟨(['m'], 1/1000), by norm_num [scaleCandidates], by rw [habs]; norm_num, by rw [habs]; norm_num⟩
  exact ⟨⟨hz.1, hz.2⟩, hx.1, hx.2.1⟩

/-- Modelled from the spec and the dB documentation: a `dBUnit` holds the
name, the conversion factor, an offset, the reference impedance (in Ohm,
default 50) and the optional underlying linear physical unit (`none` for
relative dB units).  The documentation's internal-representation section
shows `('dBm', 10, 0, 50 Ohm, mW)` and `('dB', 0, 0, 50 Ohm, None)`. -/
structure dBUnit where
  name : String
  factor : ℚ
  offset : ℚ
  z0 : ℚ
  physicalunit : Option PhysicalUnit
deriving DecidableEq

/-- The milliwatt, reference of dBm. -/
def mWUnit : PhysicalUnit := ⟨['m', 'W'], dimPower, 1/1000, true⟩

/-- The watt, reference of dBW. -/
def wUnit : PhysicalUnit := ⟨['W'], dimPower, 1, false⟩

/-- The volt, reference of dBV. -/
def vUnit : PhysicalUnit := ⟨['V'], dimVoltage, 1, false⟩

/-- The square metre, reference of dBsm. -/
def sqmUnit : PhysicalUnit := ⟨['m', '^', '2'], dimArea, 1, false⟩

/-- The relative dB unit: no physical reference, factor 0 per the docs. -/
def dBrelUnit : dBUnit := ⟨"dB", 0, 0, 50, none⟩

/-- The absolute dBm unit (reference 1 mW, factor 10). -/
def dBmUnit : dBUnit := ⟨"dBm", 10, 0, 50, some mWUnit⟩

/-- The absolute dBW unit (reference 1 W, factor 10). -/
def dBWUnit : dBUnit := ⟨"dBW", 10, 0, 50, some wUnit⟩

/-- The absolute dBV unit (reference 1 V, factor 20). -/
def dBVUnit : dBUnit := ⟨"dBV", 20, 0, 50, some vUnit⟩

/-- Modelled from the spec and the documentation's table of the fifteen
supported dB units: power-like absolute units carry factor 10, voltage- and
current-like absolute units carry factor 20, relative units carry factor 0. -/
def dB_unit_table : List (String × dBUnit) := [
  ("dB", dBrelUnit),
  ("dBm", dBmUnit),
  ("dBW", dBWUnit),
  ("dBV", dBVUnit),
  ("dBnV", ⟨"dBnV", 20, 0, 50, some ⟨['n', 'V'], dimVoltage, 1/10^9, true⟩⟩),
  ("dBuV", ⟨"dBuV", 20, 0, 50, some ⟨['u', 'V'], dimVoltage, 1/10^6, true⟩⟩),
  ("dBmV", ⟨"dBmV", 20, 0, 50, some ⟨['m', 'V'], dimVoltage, 1/10^3, true⟩⟩),
  ("dBnA", ⟨"dBnA", 20, 0, 50, some ⟨['n', 'A'], dimCurrent, 1/10^9, true⟩⟩),
  ("dBuA", ⟨"dBuA", 20, 0, 50, some ⟨['u', 'A'], dimCurrent, 1/10^6, true⟩⟩),
  ("dBmA", ⟨"dBmA", 20, 0, 50, some ⟨['m', 'A'], dimCurrent, 1/10^3, true⟩⟩),
  ("dBA", ⟨"dBA", 20, 0, 50, some ⟨['A'], dimCurrent, 1, false⟩⟩),
  ("dBsm", ⟨"dBsm", 10, 0, 50, some sqmUnit⟩),
  ("dBi", ⟨"dBi", 0, 0, 50, none⟩),
  ("dBc", ⟨"dBc", 0, 0, 50, none⟩),
  ("dBd", ⟨"dBd", 0, 0, 50, none⟩)
]

/-- Name lookup in the dB unit table. -/
def dBlookup (uname : String) : Option dBUnit :=
  dB_unit_table.findSome? (fun e => if e.1 = uname then some e.2 else none)

/-- Modelled from the spec: a `dBQuantity` pairs a log-domain real value with
a `dBUnit`. -/
structure dBQuantity where
  value : ℝ
  unit : dBUnit

/-- Modelled from the spec §4.4: dB addition.  Two absolutes of the same
physical family combine by true power summation
`10*log10(10^(a/10) + 10^(b/10))` keeping the left unit; two absolutes of
different families fail with `UnitError`; any combination involving a
relative operand is plain numeric addition keeping the absolute operand's
unit (the left unit when both are relative). -/
noncomputable def dbadd (a b : dBQuantity) : Except PQError dBQuantity :=
  match a.unit.physicalunit, b.unit.physicalunit with
  | some pa, some pb =>
    if pa.powers = pb.powers then
      .ok ⟨10 * Real.logb 10 ((10 : ℝ) ^ (a.value / 10) + (10 : ℝ) ^ (b.value / 10)), a.unit⟩
    else
      .error .incompatible
  | some _, none => .ok ⟨a.value + b.value, a.unit⟩
  | none, some _ => .ok ⟨a.value + b.value, b.unit⟩
  | none, none => .ok ⟨a.value + b.value, a.unit⟩

/-- Modelled from the spec §4.4: `dB10(x) = 10*log10(x)` producing a relative
dB quantity, raising a domain error on non-positive input. -/
noncomputable def dB10 (x : ℝ) : Except PQError dBQuantity :=
  if 0 < x then .ok ⟨10 * Real.logb 10 x, dBrelUnit⟩ else .error .domainError

/-- Modelled from the spec §4.4: `dB20(x) = 20*log10(x)` producing a relative
dB quantity, raising a domain error on non-positive input. -/
noncomputable def dB20 (x : ℝ) : Except PQError dBQuantity :=
  if 0 < x then .ok ⟨20 * Real.logb 10 x, dBrelUnit⟩ else .error .domainError

/-- Modelled from the spec §4.4: the `lin10` property, `10^(value/10)`. -/
noncomputable def lin10 (a : dBQuantity) : ℝ :=
  (10 : ℝ) ^ (a.value / 10)

/-- Modelled from the spec §4.4: the `lin20` property, `10^(value/20)`. -/
noncomputable def lin20 (a : dBQuantity) : ℝ :=
  (10 : ℝ) ^ (a.value / 20)

/-- Modelled from the spec and the documentation's internal-representation
section: the `dBQuantity(value, unit, islog)` constructor stores the value
unchanged when `islog` is true and converts the linear value into the log
domain (`factor * log10(value)`) when `islog` is false. -/
noncomputable def make_dBQuantity (v : ℝ) (uname : String) (islog : Bool) :
    Option dBQuantity :=
  (dBlookup uname).map (fun u =>
    if islog then ⟨v, u⟩ else ⟨(u.factor : ℝ) * Real.logb 10 v, u⟩)

lemma log_ten_bounds : (2.3024 : ℝ) < Real.log 10 ∧ Real.log 10 < 2.3027 := by
  have h1024 : Real.log 1024 = 10 * Real.log 2 := by
    rw [show (1024 : ℝ) = 2 ^ (10 : ℕ) by norm_num, Real.log_pow]
    norm_num
  have hsplit : Real.log 1024 = Real.log 1.024 + 3 * Real.log 10 := by
    rw [show (1024 : ℝ) = 1.024 * 10 ^ (3 : ℕ) by norm_num,
      Real.log_mul (by norm_num) (by norm_num), Real.log_pow]
    norm_num
  have hub : Real.log 1.024 ≤ 0.024 := by
    have h := Real.log_le_sub_one_of_pos (show (0 : ℝ) < 1.024 by norm_num)
    linarith
  have hlb : (0.0234375 : ℝ) ≤ Real.log 1.024 := by
    have h := Real.log_le_sub_one_of_pos (show (0 : ℝ) < (1.024 : ℝ)⁻¹ by norm_num)
    rw [Real.log_inv] at h
    have hv : ((1.024 : ℝ))⁻¹ - 1 = -0.0234375 := by norm_num
    linarith
  have hgt := Real.log_two_gt_d9
  have hlt := Real.log_two_lt_d9
  constructor <;> linarith

lemma ten_logb_two_bounds : |10 * Real.logb 10 2 - 3.0103| < 1/1000 := by
  have hb1 := log_ten_bounds.1
  have hb2 := log_ten_bounds.2
  have hgt := Real.log_two_gt_d9
  have hlt := Real.log_two_lt_d9
  have hpos : (0 : ℝ) < Real.log 10 := by linarith
  have hrw : 10 * Real.logb 10 2 = 10 * Real.log 2 / Real.log 10 := by
    rw [Real.logb]
    ring
  have h1 : 10 * Real.log 2 / Real.log 10 < 3.0113 :=
    (div_lt_iff₀ hpos).mpr (by nlinarith)
  have h2 : (3.0093 : ℝ) < 10 * Real.log 2 / Real.log 10 :=
    (lt_div_iff₀ hpos).mpr (by nlinarith)
  rw [hrw, abs_lt]
  constructor <;> linarith

/-- C3: dB addition distinguishes three rules — two absolute quantities of
the same physical family combine by true power summation
`10*log10(10^(a/10)+10^(b/10))` in the left unit (so `0 dBW + 0 dBW` is
`3.0103 dBW` within `1e-3`), an absolute and a relative add numerically
keeping the absolute unit (so `0 dBm + 3 dB = 3 dBm` exactly), and two
absolutes of different families fail with `UnitError`. -/
theorem dbadd_spec :
    (∀ a b : dBQuantity, ∀ pa pb : PhysicalUnit,
      a.unit.physicalunit = some pa → b.unit.physicalunit = some pb →
      pa.powers = pb.powers →
      dbadd a b = .ok ⟨10 * Real.logb 10
        ((10 : ℝ) ^ (a.value / 10) + (10 : ℝ) ^ (b.value / 10)), a.unit⟩) ∧
    (∀ a b : dBQuantity, ∀ pa pb : PhysicalUnit,
      a.unit.physicalunit = some pa → b.unit.physicalunit = some pb →
      pa.powers ≠ pb.powers → dbadd a b = .error .incompatible) ∧
    (∀ a b : dBQuantity, ∀ pa : PhysicalUnit,
      a.unit.physicalunit = some pa → b.unit.physicalunit = none →
      dbadd a b = .ok ⟨a.value + b.value, a.unit⟩) ∧
    dbadd ⟨0, dBmUnit⟩ ⟨3, dBrelUnit⟩ = .ok ⟨3, dBmUnit⟩ ∧
    (∃ v, dbadd ⟨0, dBWUnit⟩ ⟨0, dBWUnit⟩ = .ok ⟨v, dBWUnit⟩ ∧
      |v - 3.0103| < 1/1000) := by
  refine ⟨?_, ?_, ?_, ?_, ?_⟩
  · intro a b pa pb ha hb hdim
    simp [dbadd, ha, hb, hdim]
  · intro a b pa pb ha hb hdim
    simp [dbadd, ha, hb, hdim]
  · intro a b pa ha hb
    simp [dbadd, ha, hb]
  · have h : dbadd ⟨0, dBmUnit⟩ ⟨3, dBrelUnit⟩ = .ok ⟨0 + 3, dBmUnit⟩ := by
      simp [dbadd, dBmUnit, dBrelUnit]
    rw [h]
    norm_num
  · refine ⟨10 * Real.logb 10 2, ?_, ten_logb_two_bounds⟩
    have h : dbadd ⟨0, dBWUnit⟩ ⟨0, dBWUnit⟩ = .ok ⟨10 * Real.logb 10
        ((10 : ℝ) ^ ((0 : ℝ) / 10) + (10 : ℝ) ^ ((0 : ℝ) / 10)), dBWUnit⟩ := by
      simp [dbadd, dBWUnit]
    rw [h]
    norm_num

/-- C3 witness: `dbadd_spec` applied at concrete quantities — adding dBW to
dBV raises `UnitError`, and adding a relative gain to an absolute level adds
numerically. -/
theorem dbadd_spec_witness :
    dbadd ⟨0, dBWUnit⟩ ⟨0, dBVUnit⟩ = .error .incompatible ∧
    dbadd ⟨1, dBWUnit⟩ ⟨2, dBrelUnit⟩ = .ok ⟨1 + 2, dBWUnit⟩ :=
  ⟨dbadd_spec.2.1 ⟨0, dBWUnit⟩ ⟨0, dBVUnit⟩ wUnit vUnit rfl rfl (by decide),
   dbadd_spec.2.2.1 ⟨1, dBWUnit⟩ ⟨2, dBrelUnit⟩ wUnit rfl rfl⟩

/-- C7: `dB10`/`dB20` compute `10*log10(x)` / `20*log10(x)` as relative dB
quantities for positive `x` (so `dB10 10 = 10 dB`, `dB20 10 = 20 dB`), fail
with a domain error for non-positive `x`, and the `lin10`/`lin20` properties
invert them (`(10 dB).lin10 = 10`, `(10 dB).lin20 ≈ 3.1623`). -/
theorem dB_helpers_spec :
    (∀ x : ℝ, 0 < x → dB10 x = .ok ⟨10 * Real.logb 10 x, dBrelUnit⟩) ∧
    (∀ x : ℝ, x ≤ 0 → dB10 x = .error .domainError) ∧
    (∀ x : ℝ, 0 < x → dB20 x = .ok ⟨20 * Real.logb 10 x, dBrelUnit⟩) ∧
    (∀ x : ℝ, x ≤ 0 → dB20 x = .error .domainError) ∧
    dB10 10 = .ok ⟨10, dBrelUnit⟩ ∧
    dB20 10 = .ok ⟨20, dBrelUnit⟩ ∧
    lin10 ⟨10, dBrelUnit⟩ = 10 ∧
    |lin20 ⟨10, dBrelUnit⟩ - 3.1623| < 1/1000 := by
  have hlogb : Real.logb 10 (10 : ℝ) = 1 := Real.logb_self_eq_one (by norm_num)
  refine ⟨?_, ?_, ?_, ?_, ?_, ?_, ?_, ?_⟩
  · intro x hx
    simp [dB10, hx]
  · intro x hx
    simp [dB10, not_lt.mpr hx]
  · intro x hx
    simp [dB20, hx]
  · intro x hx
    simp [dB20, not_lt.mpr hx]
  · have h : dB10 10 = .ok ⟨10 * Real.logb 10 (10 : ℝ), dBrelUnit⟩ := by
      simp [dB10]
    rw [h, hlogb]
    norm_num
  · have h : dB20 10 = .ok ⟨20 * Real.logb 10 (10 : ℝ), dBrelUnit⟩ := by
      simp [dB20]
    rw [h, hlogb]
    norm_num
  · have h : lin10 ⟨10, dBrelUnit⟩ = (10 : ℝ) ^ ((10 : ℝ) / 10) := rfl
    rw [h]
    norm_num
  · have hs : lin20 ⟨10, dBrelUnit⟩ = Real.sqrt 10 := by
      rw [lin20, Real.sqrt_eq_rpow]
      norm_num
    rw [hs]
    have h1 : Real.sqrt 10 ^ 2 = 10 := Real.sq_sqrt (by norm_num)
    have h2 : (0 : ℝ) ≤ Real.sqrt 10 := Real.sqrt_nonneg 10
    rw [abs_lt]
    constructor <;> nlinarith

/-- C7 witness: `dB_helpers_spec` applied at `x = 5` (positive) and
`x = -2` (domain error). -/
theorem dB_helpers_spec_witness :
    ((0 : ℝ) < 5 ∧ dB10 5 = .ok ⟨10 * Real.logb 10 5, dBrelUnit⟩) ∧
    ((-2 : ℝ) ≤ 0 ∧ dB20 (-2) = .error .domainError) :=
  ⟨⟨by norm_num, dB_helpers_spec.1 5 (by norm_num)⟩,
   ⟨by norm_num, dB_helpers_spec.2.2.2.1 (-2) (by norm_num)⟩⟩

/-- C8 counterexample: the relative unit 'dB' sits in the dB unit table with
conversion factor 0, which is neither 10 nor 20 — refuting the claim that
every LogUnit's factor is 10 or 20. -/
theorem dB_factor_cex :
    dBlookup "dB" = some dBrelUnit ∧
    dBrelUnit.factor ≠ 10 ∧ dBrelUnit.factor ≠ 20 := by
  refine ⟨rfl, ?_, ?_⟩ <;> decide

/-- C8 amended: every absolute dB unit (one with a physical reference) has
conversion factor 10 or 20; the relative dB units store factor 0. -/
theorem dB_factor_spec :
    ∀ e ∈ dB_unit_table,
      (e.2.physicalunit ≠ none → e.2.factor = 10 ∨ e.2.factor = 20) ∧
      (e.2.physicalunit = none → e.2.factor = 0) := by
  intro e he
  fin_cases he <;>
    constructor <;>
    intro h <;>
    simp_all [dBrelUnit, dBmUnit, dBWUnit, dBVUnit]

/-- C8 amended witness: `dB_factor_spec` applied at the dBm and dB entries. -/
theorem dB_factor_spec_witness :
    (("dBm", dBmUnit) ∈ dB_unit_table ∧ (dBmUnit.factor = 10 ∨ dBmUnit.factor = 20)) ∧
    (("dB", dBrelUnit) ∈ dB_unit_table ∧ dBrelUnit.factor = 0) := by
  have h1 : ("dBm", dBmUnit) ∈ dB_unit_table := by simp [dB_unit_table]
  have h2 : ("dB", dBrelUnit) ∈ dB_unit_table := by simp [dB_unit_table]
  exact ⟨⟨h1, (dB_factor_spec _ h1).1 (by simp [dBmUnit])⟩,
    ⟨h2, (dB_factor_spec _ h2).2 rfl⟩⟩

/-- C10: the constructor's `islog` flag — with `islog = true` the value is
stored unchanged as the log-domain value (`dBQuantity(0.1,'dBm',True)` is
`0.1 dBm`), with `islog = false` the value is treated as a linear magnitude
of the unit's reference and converted into the log domain
(`dBQuantity(0.1,'dBm',False)` is `-10 dBm`). -/
theorem islog_spec :
    (∀ v : ℝ, make_dBQuantity v "dBm" true = some ⟨v, dBmUnit⟩) ∧
    (∀ v : ℝ, make_dBQuantity v "dBm" false =
      some ⟨(dBmUnit.factor : ℝ) * Real.logb 10 v, dBmUnit⟩) ∧
    make_dBQuantity 0.1 "dBm" true = some ⟨0.1, dBmUnit⟩ ∧
    make_dBQuantity 0.1 "dBm" false = some ⟨-10, dBmUnit⟩ := by
  have hlk : dBlookup "dBm" = some dBmUnit := rfl
  have hlog : Real.logb 10 (0.1 : ℝ) = -1 := by
    rw [show (0.1 : ℝ) = (10 : ℝ)⁻¹ by norm_num, Real.logb_inv,
      Real.logb_self_eq_one (by norm_num)]
  refine ⟨?_, ?_, ?_, ?_⟩
  · intro v
    simp [make_dBQuantity, hlk]
  · intro v
    simp [make_dBQuantity, hlk]
  · simp [make_dBQuantity, hlk]
  · have h : make_dBQuantity 0.1 "dBm" false =
        some ⟨(dBmUnit.factor : ℝ) * Real.logb 10 (0.1 : ℝ), dBmUnit⟩ := by
      simp [make_dBQuantity, hlk]
    rw [h, hlog]
    norm_num [dBmUnit]
